import Mathlib

/-!
Verification of the OpenAPI gateway service of this repository
(`src/background/service/openapi.ts`).

The file shallowly embeds the data model and the operations of the service:

* the route-table entry type `OpenApiConfigValue` and the persisted store
  `OpenApiStore` (`interface OpenApiConfigValue` / `interface OpenApiStore`);
* the bundled template route table passed to `createPersistStore` inside
  `init` (`templateConfig`, `initTemplate`);
* the discovery refresh `getConfig` together with the `try/catch` of `init`
  (`getConfig`, `initTryStep`);
* the dynamic dispatcher `_mountMethods` (`setKey`, `spreadInto`,
  `zipArgsObj`, `mountedReqData`, `mountedCall`, `mountedResolve`,
  `mountOne`, `mountMethods`);
* the typed operation surface (`getRecommendChainsRequest`, ...,
  `gasMarketRequest`, `typedOpRoute`);
* the risk decision data contract (`SecurityCheckResponse`) and the
  pass-through result handling of the check operations;
* the host / persistence life cycle (`ServiceState`, `init`, `setHost`),
  with the persistence capability modelled from the spec because
  `createPersistStore` lives in `background/utils`, outside `src/`.

JavaScript objects are modelled as ordered association lists
(`List (String × Value)`) with JavaScript assignment semantics (`setKey`):
assigning to an existing key updates in place, assigning a new key appends.
`Value.undef` models the JavaScript value `undefined`.
-/

namespace OpenApi

/-- Transaction shape, from `interface Tx` of the source. -/
structure Tx where
  chainId : Int
  data : String
  «from» : String
  gas : String
  gasPrice : String
  nonce : String
  «to» : String
  value : String
  r : Option String
  s : Option String
  v : Option String
deriving DecidableEq, Repr

/-- JSON-like values appearing in request payloads. `undef` models the
JavaScript value `undefined` (for example a missing positional argument). -/
inductive Value where
  | str : String → Value
  | num : Int → Value
  | bool : Bool → Value
  | txv : Tx → Value
  | undef : Value
deriving DecidableEq, Repr

/-- Route-table entry, from `interface OpenApiConfigValue` of the source.
The axios `Method` union type is embedded as `String`. -/
structure OpenApiConfigValue where
  path : String
  method : String
  params : Option (List String)
deriving DecidableEq, Repr

/-- Persisted service store, from `interface OpenApiStore`: the host and the
route table (`config`), the latter modelled as an ordered association list. -/
structure OpenApiStore where
  host : String
  config : List (String × OpenApiConfigValue)
deriving DecidableEq, Repr

/-- The bundled template route table, from the `template.config` object
literal passed to `createPersistStore` inside `init` (source lines 165-230),
with entries in source order. -/
def templateConfig : List (String × OpenApiConfigValue) :=
  [("get_supported_chains",
     { path := "/v1/wallet/supported_chains", method := "get", params := some [] }),
   ("get_total_balance",
     { path := "/v1/user/total_balance", method := "get", params := some ["id"] }),
   ("get_pending_tx_count",
     { path := "/v1/wallet/pending_tx_count", method := "get", params := some ["id"] }),
   ("recommend_chains",
     { path := "/v1/wallet/recommend_chains", method := "get", params := some ["origin", "id"] }),
   ("check_origin_to_connect",
     { path := "/v1/wallet/security/check_origin", method := "get", params := none }),
   ("explain_origin_to_connect",
     { path := "/v1/wallet/explain_origin", method := "get",
       params := some ["origin", "title", "return_logo"] }),
   ("explain_text_to_sign",
     { path := "/v1/wallet/api/explain_text", method := "get",
       params := some ["origin", "text", "user_addr"] }),
   ("check_text_to_sign",
     { path := "/v1/wallet/check_text", method := "post",
       params := some ["origin", "text", "user_addr"] }),
   ("explain_tx_to_sign",
     { path := "/v1/wallet/explain_tx", method := "get", params := none }),
   ("check_tx_to_sign",
     { path := "/v1/wallet/check_tx", method := "post", params := none }),
   ("gas_market",
     { path := "/v1/wallet/gas_market", method := "get",
       params := some ["chainId", "custom_price"] }),
   ("push_tx",
     { path := "/v1/wallet/push_tx", method := "get", params := none })]

/-- The bundled template store (`template` object of `init`): the default
host together with `templateConfig`. -/
def initTemplate : OpenApiStore :=
  { host := "https://alpha-openapi.debank.com", config := templateConfig }

/-- The fixed protocol-forwarding method list `EVM_RPC_METHODS` of the
source, passed to `_mountMethods` by `init`. -/
def EVM_RPC_METHODS : List String :=
  ["eth_getTransactionCount", "eth_blockNumber", "eth_call", "eth_estimateGas"]

/-- Raw route entry as it arrives from the discovery endpoint, before
normalization by `getConfig`. `method` is `none` when the field is absent or
not a string, in which case the source expression
`data[key].method.toLowerCase()` raises a TypeError (the malformed-payload
failure mode). -/
structure RawConfigValue where
  path : String
  method : Option String
  params : Option (List String)
deriving DecidableEq, Repr

/-- Outcome of the GET issued by `getConfig` to `/v1/wallet/config`:
either a network / transport error (the awaited request rejects) or a
payload of raw entries keyed by operation name. -/
inductive FetchResult where
  | networkError : FetchResult
  | ok : List (String × RawConfigValue) → FetchResult
deriving DecidableEq, Repr

/-- The normalization loop of `getConfig`
(`for (const key in data) data[key].method = data[key].method.toLowerCase()`):
lower-cases every entry's method, and fails (models the thrown TypeError)
when any entry has no usable `method`. The store is only assigned after the
whole loop, so a failure anywhere leaves the store untouched. -/
def normalizeConfig : List (String × RawConfigValue) →
    Option (List (String × OpenApiConfigValue))
  | [] => some []
  | (k, v) :: rest =>
    match v.method with
    | none => none
    | some m =>
      (normalizeConfig rest).map
        (fun cfg => (k, { path := v.path, method := m.toLower, params := v.params }) :: cfg)

/-- The `getConfig` operation of the source: fetch the discovery payload,
lower-case every method, and replace `store.config` wholesale. A thrown
error (network failure or malformed payload) is modelled as `Except.error`
and leaves the store value unchanged in the caller. -/
def getConfig (store : OpenApiStore) (fetched : FetchResult) :
    Except Unit OpenApiStore :=
  match fetched with
  | FetchResult.networkError => Except.error ()
  | FetchResult.ok data =>
    match normalizeConfig data with
    | none => Except.error ()
    | some cfg => Except.ok { store with config := cfg }

/-- The `try { await this.getConfig() } catch (e) { console.error(...) }`
step of `init`: a failing refresh is caught and logged, leaving the store as
it was; a successful refresh yields the store with the replaced table. -/
def initTryStep (store : OpenApiStore) (fetched : FetchResult) : OpenApiStore :=
  match getConfig store fetched with
  | Except.ok s => s
  | Except.error _ => store

theorem normalizeConfig_eq_map (data : List (String × RawConfigValue))
    (cfg : List (String × OpenApiConfigValue))
    (h : normalizeConfig data = some cfg) :
    cfg = data.map (fun p =>
      (p.1, { path := p.2.path, method := (p.2.method.getD "").toLower,
              params := p.2.params })) := by
  induction data generalizing cfg with
  | nil =>
    simp only [normalizeConfig, Option.some.injEq] at h
    simp [h.symm]
  | cons hd tl ih =>
    obtain ⟨k, v⟩ := hd
    simp only [normalizeConfig] at h
    cases hm : v.method with
    | none => rw [hm] at h; exact absurd h (by simp)
    | some m =>
      rw [hm] at h
      cases hrec : normalizeConfig tl with
      | none => rw [hrec] at h; exact absurd h (by simp)
      | some cfgTl =>
        rw [hrec] at h
        have h₂ : (k, { path := v.path, method := m.toLower, params := v.params }) ::
            cfgTl = cfg := by simpa using h
        subst h₂
        simp [ih cfgTl hrec, hm]

/-- C2: `refresh()` (`getConfig`) either replaces the entire route table with
the newly fetched, method-lowercased mapping, or — on any failure (network
error or malformed payload) — leaves the existing store completely
unchanged; the failure is caught inside `init` (modelled by `initTryStep`
being a total function), and since the step produces exactly one of the two
stores, no intermediate state with some entries updated and others stale is
observable. -/
theorem getConfig_atomic (store : OpenApiStore) (fetched : FetchResult) :
    initTryStep store fetched = store ∨
    (∃ data, fetched = FetchResult.ok data ∧
      initTryStep store fetched =
        { host := store.host,
          config := data.map (fun p =>
            (p.1, { path := p.2.path, method := (p.2.method.getD "").toLower,
                    params := p.2.params })) }) := by
  cases fetched with
  | networkError => left; rfl
  | ok data =>
    cases hc : normalizeConfig data with
    | none =>
      left
      simp [initTryStep, getConfig, hc]
    | some cfg =>
      right
      refine ⟨data, rfl, ?_⟩
      simp [initTryStep, getConfig, hc, ← normalizeConfig_eq_map data cfg hc]

/-- JavaScript property assignment `m[k] = v` on an object modelled as an
ordered association list: an existing key keeps its position and gets the new
value, a new key is appended. -/
def setKey (m : List (String × Value)) (k : String) (v : Value) :
    List (String × Value) :=
  if m.any (fun p => p.1 == k) then
    m.map (fun p => if p.1 == k then (k, v) else p)
  else m ++ [(k, v)]

/-- JavaScript object spread of `obj` into a literal starting as `base`
(as in the source expression building `reqData`): every property of `obj`
is assigned onto `base` in order. -/
def spreadInto (base obj : List (String × Value)) : List (String × Value) :=
  obj.foldl (fun acc p => setKey acc p.1 p.2) base

/-- The destructuring `const [, ...rest] = config.params || []` of
`_mountMethods`: drop the first declared parameter name (the implicit chain
slot). -/
def restParams (params : Option (List String)) : List String :=
  (params.getD []).drop 1

/-- The reduce step of `_mountMethods`
(`rest.reduce((m, n, i) => { m[n] = params[i]; return m }, {})`): assign, in
order, each remaining parameter name to the positional argument with the same
index; a missing positional argument is the JavaScript `undefined`. -/
def zipArgsObj (rest : List String) (args : List Value) :
    List (String × Value) :=
  rest.enum.foldl
    (fun m q => setKey m q.2 ((args.get? q.1).getD Value.undef)) []

/-- The plain positional zip of the remaining parameter names with the call's
extra arguments, used to state the binding theorem in closed form. -/
def zipNames (rest : List String) (args : List Value) :
    List (String × Value) :=
  rest.enum.map (fun q => (q.2, (args.get? q.1).getD Value.undef))

/-- The request object `reqData` built by a mounted dynamic operation
(`{ chain_id: chainId, ...rest.reduce(...) }`). -/
def mountedReqData (config : OpenApiConfigValue) (chainId : Value)
    (args : List Value) : List (String × Value) :=
  spreadInto [("chain_id", chainId)] (zipArgsObj (restParams config.params) args)

/-- How a request leaves a mounted dynamic operation: as query parameters
(`{ params: reqData }` when `config.method === 'get'`) or as a request body
(`reqData` passed directly otherwise). -/
inductive DispatchedRequest where
  | query : String → List (String × Value) → DispatchedRequest
  | body : String → List (String × Value) → DispatchedRequest
deriving DecidableEq, Repr

/-- A mounted dynamic operation's request construction and dispatch
(`this[underline2Camelcase(method)] = (chainId, params) => ...` of
`_mountMethods`). -/
def mountedCall (config : OpenApiConfigValue) (chainId : Value)
    (args : List Value) : DispatchedRequest :=
  if config.method == "get" then
    DispatchedRequest.query config.path (mountedReqData config chainId args)
  else
    DispatchedRequest.body config.path (mountedReqData config chainId args)

/-- The response continuation of a mounted dynamic operation
(`.then(({ data }) => data?.result)`): an absent body yields `undefined`, an
envelope without a `result` field yields `undefined`, otherwise the `result`
payload. The continuation is a total function: it resolves, never rejects. -/
def mountedResolve (respData : Option (List (String × Value))) : Value :=
  match respData with
  | none => Value.undef
  | some data => (data.lookup "result").getD Value.undef

/-- Mounting a single operation name in `_mountMethods`: the route lookup
`this.store.config[method]` followed by `config.params`, which raises a
TypeError at mount time when the name has no entry (reading `.params` of
`undefined`). -/
def mountOne (table : List (String × OpenApiConfigValue)) (name : String) :
    Except Unit (Value → List Value → DispatchedRequest) :=
  match table.lookup name with
  | none => Except.error ()
  | some config => Except.ok (fun chainId args => mountedCall config chainId args)

/-- The `methods.forEach(...)` loop of `_mountMethods`: mounts each name in
order; the first thrown TypeError propagates out of the loop. -/
def mountMethods (table : List (String × OpenApiConfigValue)) :
    List String →
    Except Unit (List (String × (Value → List Value → DispatchedRequest)))
  | [] => Except.ok []
  | n :: rest =>
    match mountOne table n with
    | Except.error e => Except.error e
    | Except.ok f => (mountMethods table rest).map (fun l => (n, f) :: l)

theorem setKey_fresh (m : List (String × Value)) (k : String) (v : Value)
    (h : k ∉ m.map Prod.fst) : setKey m k v = m ++ [(k, v)] := by
  have hany : m.any (fun p => p.1 == k) = false := by
    simp only [List.any_eq_false, beq_iff_eq]
    intro p hp hk
    exact h (by rw [← hk]; exact List.mem_map_of_mem Prod.fst hp)
  simp [setKey, hany]

theorem foldl_setKey_append (ps : List (String × Value)) :
    ∀ m : List (String × Value),
    (∀ p ∈ ps, p.1 ∉ m.map Prod.fst) → (ps.map Prod.fst).Nodup →
    ps.foldl (fun acc p => setKey acc p.1 p.2) m = m ++ ps := by
  induction ps with
  | nil => intro m _ _; simp
  | cons q tl ih =>
    intro m hfresh hnodup
    simp only [List.foldl_cons]
    rw [setKey_fresh m q.1 q.2 (hfresh q (List.mem_cons_self q tl))]
    have hq : q.1 ∉ tl.map Prod.fst := by
      simp only [List.map_cons] at hnodup
      exact (List.nodup_cons.mp hnodup).1
    have hfresh₂ : ∀ p ∈ tl, p.1 ∉ (m ++ [(q.1, q.2)]).map Prod.fst := by
      intro p hp
      simp only [List.map_append, List.mem_append, List.map_cons, List.map_nil,
        List.mem_singleton]
      push_neg
      refine ⟨hfresh p (List.mem_cons_of_mem q hp), ?_⟩
      intro hpq
      exact hq (by rw [← hpq]; exact List.mem_map_of_mem Prod.fst hp)
    have hnodup₂ : (tl.map Prod.fst).Nodup := by
      simp only [List.map_cons] at hnodup
      exact (List.nodup_cons.mp hnodup).2
    rw [ih (m ++ [(q.1, q.2)]) hfresh₂ hnodup₂]
    simp

theorem zipArgsObj_eq_spread (rest : List String) (args : List Value) :
    zipArgsObj rest args = spreadInto [] (zipNames rest args) := by
  unfold zipArgsObj spreadInto zipNames
  rw [List.foldl_map]

theorem zipNames_keys (rest : List String) (args : List Value) :
    (zipNames rest args).map Prod.fst = rest := by
  unfold zipNames
  rw [List.map_map]
  have hcomp : (Prod.fst ∘ fun q : Nat × String =>
      (q.2, (args.get? q.1).getD Value.undef)) = Prod.snd := by
    funext q; rfl
  rw [hcomp]
  exact List.enum_map_snd rest

/-- C4: a mounted dynamic operation builds its request by dropping the first
declared parameter name, zipping the remaining names positionally with the
extra arguments, and merging in `chain_id`; the object goes out as query
parameters when the route's method is the read method `get` and as a request
body otherwise. Stated for routes whose remaining parameter names are
distinct and do not shadow `chain_id` (a shadowing name would overwrite the
merged `chain_id` field, per JavaScript assignment semantics). -/
theorem mounted_binding (config : OpenApiConfigValue) (chainId : Value)
    (args : List Value)
    (h₁ : (restParams config.params).Nodup)
    (h₂ : "chain_id" ∉ restParams config.params) :
    mountedReqData config chainId args =
      ("chain_id", chainId) :: zipNames (restParams config.params) args ∧
    (config.method = "get" →
      mountedCall config chainId args =
        DispatchedRequest.query config.path (mountedReqData config chainId args)) ∧
    (config.method ≠ "get" →
      mountedCall config chainId args =
        DispatchedRequest.body config.path (mountedReqData config chainId args)) := by
  refine ⟨?_, ?_, ?_⟩
  · unfold mountedReqData
    rw [zipArgsObj_eq_spread]
    have hmem : ∀ p ∈ zipNames (restParams config.params) args,
        p.1 ∈ restParams config.params := by
      intro p hp
      rw [← zipNames_keys (restParams config.params) args]
      exact List.mem_map_of_mem Prod.fst hp
    have hz : spreadInto [] (zipNames (restParams config.params) args) =
        zipNames (restParams config.params) args := by
      unfold spreadInto
      rw [foldl_setKey_append _ [] (by simp) (by rw [zipNames_keys]; exact h₁)]
      simp
    rw [hz]
    unfold spreadInto
    rw [foldl_setKey_append _ [("chain_id", chainId)] ?_
      (by rw [zipNames_keys]; exact h₁)]
    · simp
    · intro p hp
      simp only [List.map_cons, List.map_nil, List.mem_singleton]
      intro hpc
      exact h₂ (by rw [← hpc]; exact hmem p hp)
  · intro h; simp [mountedCall, h]
  · intro h; simp [mountedCall, h]

theorem mounted_binding_witness :
    mountedReqData
        { path := "/v1/eth_call", method := "get",
          params := some ["chainId", "origin", "id"] }
        (Value.num 1) [Value.str "foo", Value.str "bar"]
      = [("chain_id", Value.num 1), ("origin", Value.str "foo"),
         ("id", Value.str "bar")] ∧
    mountedCall
        { path := "/v1/eth_call", method := "get",
          params := some ["chainId", "origin", "id"] }
        (Value.num 1) [Value.str "foo", Value.str "bar"]
      = DispatchedRequest.query "/v1/eth_call"
          [("chain_id", Value.num 1), ("origin", Value.str "foo"),
           ("id", Value.str "bar")] := by
  have h := mounted_binding
    { path := "/v1/eth_call", method := "get",
      params := some ["chainId", "origin", "id"] }
    (Value.num 1) [Value.str "foo", Value.str "bar"] (by decide) (by decide)
  refine ⟨h.1.trans ?_, (h.2.1 rfl).trans ?_⟩
  · rfl
  · rw [h.1]; rfl

/-- C6: every mounted dynamic operation resolves to the response envelope's
`result` field; an envelope without a `result` field, or an absent body,
resolves to `undefined` — the continuation `mountedResolve` is a total
function, so the call resolves rather than rejecting. -/
theorem mounted_result_unwrap :
    (∀ (data : List (String × Value)) (v : Value),
      data.lookup "result" = some v → mountedResolve (some data) = v) ∧
    (∀ data : List (String × Value),
      data.lookup "result" = none → mountedResolve (some data) = Value.undef) ∧
    mountedResolve none = Value.undef := by
  refine ⟨?_, ?_, rfl⟩
  · intro data v h; simp [mountedResolve, h]
  · intro data h; simp [mountedResolve, h]

theorem mounted_result_unwrap_witness :
    mountedResolve (some [("result", Value.num 7)]) = Value.num 7 ∧
    mountedResolve (some [("status", Value.str "ok")]) = Value.undef :=
  ⟨mounted_result_unwrap.1 [("result", Value.num 7)] (Value.num 7) (by decide),
   mounted_result_unwrap.2.1 [("status", Value.str "ok")] (by decide)⟩

/-- C7: requesting a dynamic mount for an operation name that has no entry in
the route table is fatal at mount time: `_mountMethods` raises (the TypeError
of reading `.params` of `undefined`) while mounting, rather than deferring
the failure to call time. -/
theorem mount_unknown_name_throws (table : List (String × OpenApiConfigValue))
    (names : List String) (name : String)
    (h₁ : name ∈ names) (h₂ : table.lookup name = none) :
    mountMethods table names = Except.error () := by
  induction names with
  | nil => cases h₁
  | cons n tl ih =>
    rcases List.mem_cons.mp h₁ with h | h
    · subst h
      have hmo : mountOne table name = Except.error () := by
        simp [mountOne, h₂]
      simp [mountMethods, hmo]
    · cases hmo : mountOne table n with
      | error e =>
        cases e
        simp [mountMethods, hmo]
      | ok f =>
        simp [mountMethods, hmo, ih h, Except.map]

theorem mount_unknown_name_throws_witness :
    mountMethods templateConfig EVM_RPC_METHODS = Except.error () :=
  mount_unknown_name_throws templateConfig EVM_RPC_METHODS
    "eth_getTransactionCount" (by decide) (by decide)

/-- Second argument handed to the axios call of a typed operation: either a
config object wrapping query parameters (`{ params: ... }`), the request
object passed directly (a body for a write method), or no second argument at
all (`getSupportedChains`). -/
inductive AxiosArg where
  | wrapped : List (String × Value) → AxiosArg
  | bare : List (String × Value) → AxiosArg
  | absent : AxiosArg
deriving DecidableEq, Repr

/-- The request a typed operation issues: resolved method and path from its
route entry, plus the hand-written argument object. -/
structure TypedRequest where
  method : String
  path : String
  arg : AxiosArg
deriving DecidableEq, Repr

/-- The argument object carried by an `AxiosArg`. -/
def argObj : AxiosArg → List (String × Value)
  | AxiosArg.wrapped l => l
  | AxiosArg.bare l => l
  | AxiosArg.absent => []

/-- Request built by `getSupportedChains` (no second argument). -/
def getSupportedChainsRequest (entry : OpenApiConfigValue) : TypedRequest :=
  { method := entry.method, path := entry.path, arg := AxiosArg.absent }

/-- Request built by `getRecommendChains`
(`params: { user_addr: address.toLowerCase(), origin }`). -/
def getRecommendChainsRequest (entry : OpenApiConfigValue)
    (address origin : String) : TypedRequest :=
  { method := entry.method, path := entry.path,
    arg := AxiosArg.wrapped
      [("user_addr", Value.str address.toLower), ("origin", Value.str origin)] }

/-- Request built by `getTotalBalance`
(`params: { id: address.toLowerCase() }`). -/
def getTotalBalanceRequest (entry : OpenApiConfigValue)
    (address : String) : TypedRequest :=
  { method := entry.method, path := entry.path,
    arg := AxiosArg.wrapped [("id", Value.str address.toLower)] }

/-- Request built by `getPendingCount`
(`params: { user_addr: address.toLowerCase() }`). -/
def getPendingCountRequest (entry : OpenApiConfigValue)
    (address : String) : TypedRequest :=
  { method := entry.method, path := entry.path,
    arg := AxiosArg.wrapped [("user_addr", Value.str address.toLower)] }

/-- Request built by `checkOrigin`
(`params: { user_addr: address.toLowerCase(), origin }`). -/
def checkOriginRequest (entry : OpenApiConfigValue)
    (address origin : String) : TypedRequest :=
  { method := entry.method, path := entry.path,
    arg := AxiosArg.wrapped
      [("user_addr", Value.str address.toLower), ("origin", Value.str origin)] }

/-- Request built by `checkText`
(body `{ user_addr: address.toLowerCase(), origin, text }`). -/
def checkTextRequest (entry : OpenApiConfigValue)
    (address origin text : String) : TypedRequest :=
  { method := entry.method, path := entry.path,
    arg := AxiosArg.bare
      [("user_addr", Value.str address.toLower), ("origin", Value.str origin),
       ("text", Value.str text)] }

/-- Request built by `checkTx`
(body `{ user_addr: address.toLowerCase(), origin, tx, update_nonce }`). -/
def checkTxRequest (entry : OpenApiConfigValue) (tx : Tx)
    (origin address : String) (update_nonce : Bool) : TypedRequest :=
  { method := entry.method, path := entry.path,
    arg := AxiosArg.bare
      [("user_addr", Value.str address.toLower), ("origin", Value.str origin),
       ("tx", Value.txv tx), ("update_nonce", Value.bool update_nonce)] }

/-- Request built by `explainTx`
(body `{ tx, user_addr: address.toLowerCase(), origin, update_nonce }`). -/
def explainTxRequest (entry : OpenApiConfigValue) (tx : Tx)
    (origin address : String) (update_nonce : Bool) : TypedRequest :=
  { method := entry.method, path := entry.path,
    arg := AxiosArg.bare
      [("tx", Value.txv tx), ("user_addr", Value.str address.toLower),
       ("origin", Value.str origin), ("update_nonce", Value.bool update_nonce)] }

/-- Request built by `pushTx` (body `{ tx }`). -/
def pushTxRequest (entry : OpenApiConfigValue) (tx : Tx) : TypedRequest :=
  { method := entry.method, path := entry.path,
    arg := AxiosArg.bare [("tx", Value.txv tx)] }

/-- Request built by `explainText`
(body `{ user_addr: address.toLowerCase(), origin, text }`). -/
def explainTextRequest (entry : OpenApiConfigValue)
    (origin address text : String) : TypedRequest :=
  { method := entry.method, path := entry.path,
    arg := AxiosArg.bare
      [("user_addr", Value.str address.toLower), ("origin", Value.str origin),
       ("text", Value.str text)] }

/-- Request built by `gasMarket`
(`params: { chain_id: chainId, custom_price: customGas }`; an absent
`customGas` is the JavaScript `undefined`). -/
def gasMarketRequest (entry : OpenApiConfigValue) (chainId : String)
    (customGas : Option Int) : TypedRequest :=
  { method := entry.method, path := entry.path,
    arg := AxiosArg.wrapped
      [("chain_id", Value.str chainId),
       ("custom_price", customGas.elim Value.undef Value.num)] }

/-- The route lookup every typed operation performs first
(`const config = this.store.config.some_key`): reading a member of the looked
up entry raises a TypeError when the key is absent, so an absent key makes
the operation throw before any request is built. -/
def typedOpRoute (store : OpenApiStore) (key : String) :
    Except Unit OpenApiConfigValue :=
  match store.config.lookup key with
  | none => Except.error ()
  | some c => Except.ok c

/-- C1 (refuted): the five risk / explanation typed operations look up the
keys `check_origin`, `check_text`, `check_tx`, `explain_tx` and
`explain_text`, none of which exists in the bundled template route table —
the template instead carries `check_origin_to_connect`, `check_text_to_sign`,
`check_tx_to_sign`, `explain_tx_to_sign` and `explain_text_to_sign`. With the
template authoritative (for example after a failed refresh) each of these
route lookups fails, so the failure branch is reached and the operations
throw instead of remaining callable. -/
theorem typed_check_routes_missing_from_template :
    typedOpRoute initTemplate "check_origin" = Except.error () ∧
    typedOpRoute initTemplate "check_text" = Except.error () ∧
    typedOpRoute initTemplate "check_tx" = Except.error () ∧
    typedOpRoute initTemplate "explain_tx" = Except.error () ∧
    typedOpRoute initTemplate "explain_text" = Except.error () ∧
    (templateConfig.lookup "check_origin_to_connect").isSome = true ∧
    (templateConfig.lookup "check_text_to_sign").isSome = true ∧
    (templateConfig.lookup "check_tx_to_sign").isSome = true ∧
    (templateConfig.lookup "explain_tx_to_sign").isSome = true ∧
    (templateConfig.lookup "explain_text_to_sign").isSome = true :=
  ⟨rfl, rfl, rfl, rfl, rfl, rfl, rfl, rfl, rfl, rfl⟩

/-- C3: every typed operation that accepts an address sends it lower-cased,
whatever the input casing: the address-carrying field of each hand-written
request object is exactly `address.toLowerCase()`. -/
theorem typed_requests_lowercase_address (entry : OpenApiConfigValue)
    (address origin text : String) (tx : Tx) (un : Bool) :
    (argObj (getRecommendChainsRequest entry address origin).arg).lookup
      "user_addr" = some (Value.str address.toLower) ∧
    (argObj (getTotalBalanceRequest entry address).arg).lookup "id" =
      some (Value.str address.toLower) ∧
    (argObj (getPendingCountRequest entry address).arg).lookup "user_addr" =
      some (Value.str address.toLower) ∧
    (argObj (checkOriginRequest entry address origin).arg).lookup "user_addr" =
      some (Value.str address.toLower) ∧
    (argObj (checkTextRequest entry address origin text).arg).lookup
      "user_addr" = some (Value.str address.toLower) ∧
    (argObj (checkTxRequest entry tx origin address un).arg).lookup
      "user_addr" = some (Value.str address.toLower) ∧
    (argObj (explainTxRequest entry tx origin address un).arg).lookup
      "user_addr" = some (Value.str address.toLower) ∧
    (argObj (explainTextRequest entry origin address text).arg).lookup
      "user_addr" = some (Value.str address.toLower) := by
  refine ⟨rfl, rfl, rfl, rfl, rfl, rfl, ?_, rfl⟩
  simp [explainTxRequest, argObj, List.lookup]

/-- C10: every typed operation ignores the `params` names declared in its
route entry and uses only the entry's path and method — its request field
names are fixed constants. In particular `getPendingCount` always sends
`user_addr` although the bundled template declares params `["id"]`, and
`gasMarket` always sends `chain_id` and `custom_price` although the template
declares params `["chainId", "custom_price"]`. -/
theorem typed_ops_ignore_params (e₁ e₂ : OpenApiConfigValue)
    (hp : e₁.path = e₂.path) (hm : e₁.method = e₂.method) :
    (∀ address origin text : String, ∀ tx : Tx, ∀ un : Bool,
      ∀ chainId : String, ∀ customGas : Option Int,
      getSupportedChainsRequest e₁ = getSupportedChainsRequest e₂ ∧
      getRecommendChainsRequest e₁ address origin =
        getRecommendChainsRequest e₂ address origin ∧
      getTotalBalanceRequest e₁ address = getTotalBalanceRequest e₂ address ∧
      getPendingCountRequest e₁ address = getPendingCountRequest e₂ address ∧
      checkOriginRequest e₁ address origin = checkOriginRequest e₂ address origin ∧
      checkTextRequest e₁ address origin text =
        checkTextRequest e₂ address origin text ∧
      checkTxRequest e₁ tx origin address un = checkTxRequest e₂ tx origin address un ∧
      explainTxRequest e₁ tx origin address un =
        explainTxRequest e₂ tx origin address un ∧
      pushTxRequest e₁ tx = pushTxRequest e₂ tx ∧
      explainTextRequest e₁ origin address text =
        explainTextRequest e₂ origin address text ∧
      gasMarketRequest e₁ chainId customGas = gasMarketRequest e₂ chainId customGas) ∧
    templateConfig.lookup "get_pending_tx_count" =
      some { path := "/v1/wallet/pending_tx_count", method := "get",
             params := some ["id"] } ∧
    (∀ entry : OpenApiConfigValue, ∀ address : String,
      (argObj (getPendingCountRequest entry address).arg).map Prod.fst =
        ["user_addr"]) ∧
    templateConfig.lookup "gas_market" =
      some { path := "/v1/wallet/gas_market", method := "get",
             params := some ["chainId", "custom_price"] } ∧
    (∀ entry : OpenApiConfigValue, ∀ chainId : String, ∀ customGas : Option Int,
      (argObj (gasMarketRequest entry chainId customGas).arg).map Prod.fst =
        ["chain_id", "custom_price"]) := by
  refine ⟨?_, rfl, fun entry address => rfl, rfl,
    fun entry chainId customGas => rfl⟩
  intro address origin text tx un chainId customGas
  refine ⟨?_, ?_, ?_, ?_, ?_, ?_, ?_, ?_, ?_, ?_, ?_⟩ <;>
    simp [getSupportedChainsRequest, getRecommendChainsRequest,
      getTotalBalanceRequest, getPendingCountRequest, checkOriginRequest,
      checkTextRequest, checkTxRequest, explainTxRequest, pushTxRequest,
      explainTextRequest, gasMarketRequest, hp, hm]

theorem typed_ops_ignore_params_witness :
    getPendingCountRequest
        { path := "/v1/wallet/pending_tx_count", method := "get",
          params := some ["id"] } "0xAB"
      = getPendingCountRequest
        { path := "/v1/wallet/pending_tx_count", method := "get",
          params := none } "0xAB" ∧
    gasMarketRequest
        { path := "/v1/wallet/gas_market", method := "get",
          params := some ["chainId", "custom_price"] } "1" none
      = gasMarketRequest
        { path := "/v1/wallet/gas_market", method := "get",
          params := none } "1" none := by
  have h₁ := typed_ops_ignore_params
    { path := "/v1/wallet/pending_tx_count", method := "get", params := some ["id"] }
    { path := "/v1/wallet/pending_tx_count", method := "get", params := none }
    rfl rfl
  have h₂ := typed_ops_ignore_params
    { path := "/v1/wallet/gas_market", method := "get",
      params := some ["chainId", "custom_price"] }
    { path := "/v1/wallet/gas_market", method := "get", params := none }
    rfl rfl
  have tx₀ : Tx := ⟨1, "", "", "", "", "", "", "", none, none, none⟩
  exact ⟨(h₁.1 "0xAB" "" "" tx₀ false "" none).2.2.2.1,
    (h₂.1 "" "" "" tx₀ false "1" none).2.2.2.2.2.2.2.2.2.2⟩

/-- Risk decision enumeration, from `type SecurityCheckDecision` of the
source; `loading` and `pending` are the transient non-final states. -/
inductive SecurityCheckDecision where
  | pass
  | warning
  | danger
  | forbidden
  | loading
  | pending
deriving DecidableEq, Repr

/-- Alert bucket item, from `interface SecurityCheckItem`. -/
structure SecurityCheckItem where
  alert : String
  id : Int
deriving DecidableEq, Repr

/-- Risk check response, from `interface SecurityCheckResponse`. -/
structure SecurityCheckResponse where
  decision : SecurityCheckDecision
  alert : String
  danger_list : List SecurityCheckItem
  warning_list : List SecurityCheckItem
  forbidden_list : List SecurityCheckItem
deriving DecidableEq, Repr

/-- Modelled from the spec's invariant wording (no code in the source
computes this): the highest-severity non-empty alert bucket under the
ordering pass < warning < danger < forbidden, and `pass` when all three
buckets are empty. -/
def specBucketDecision (r : SecurityCheckResponse) : SecurityCheckDecision :=
  if r.forbidden_list ≠ [] then SecurityCheckDecision.forbidden
  else if r.danger_list ≠ [] then SecurityCheckDecision.danger
  else if r.warning_list ≠ [] then SecurityCheckDecision.warning
  else SecurityCheckDecision.pass

/-- The spec's decision invariant for a risk check result. -/
def decisionInvariant (r : SecurityCheckResponse) : Prop :=
  r.decision = specBucketDecision r

instance (r : SecurityCheckResponse) : Decidable (decisionInvariant r) := by
  unfold decisionInvariant
  infer_instance

/-- Result handling of `checkOrigin`: the backend payload is returned
unchanged (`return data`). -/
def checkOriginResult (resp : SecurityCheckResponse) : SecurityCheckResponse :=
  resp

/-- Result handling of `checkText`: the backend payload is returned
unchanged (`return data`). -/
def checkTextResult (resp : SecurityCheckResponse) : SecurityCheckResponse :=
  resp

/-- Result handling of `checkTx`: the backend payload is returned unchanged
(`return data`). -/
def checkTxResult (resp : SecurityCheckResponse) : SecurityCheckResponse :=
  resp

/-- A backend response whose `decision` contradicts its alert buckets:
`pass` with a non-empty danger bucket. -/
def badSecurityResponse : SecurityCheckResponse :=
  { decision := SecurityCheckDecision.pass, alert := "",
    danger_list := [{ alert := "phishing site", id := 1 }],
    warning_list := [], forbidden_list := [] }

/-- C8 (refuted as stated): the risk-check operations forward the backend's
response verbatim and enforce nothing, so a backend response whose
`decision` is `pass` while its danger bucket is non-empty is returned
exactly as received — the returned SecurityCheckResult violates the
decision invariant. -/
theorem check_decision_counterexample :
    checkOriginResult badSecurityResponse = badSecurityResponse ∧
    ¬ decisionInvariant (checkOriginResult badSecurityResponse) :=
  ⟨rfl, by decide⟩

/-- C8 (amended): each risk-check operation returns the backend response
unchanged, so the decision invariant holds for the returned result exactly
when the backend response already satisfies it; the client neither computes
nor enforces the invariant. -/
theorem check_results_preserve_invariant (r : SecurityCheckResponse)
    (h : decisionInvariant r) :
    decisionInvariant (checkOriginResult r) ∧
    decisionInvariant (checkTextResult r) ∧
    decisionInvariant (checkTxResult r) :=
  ⟨h, h, h⟩

theorem check_results_preserve_invariant_witness :
    decisionInvariant
      (checkOriginResult
        { decision := SecurityCheckDecision.danger, alert := "",
          danger_list := [{ alert := "risky interaction", id := 2 }],
          warning_list := [], forbidden_list := [] }) :=
  (check_results_preserve_invariant
    { decision := SecurityCheckDecision.danger, alert := "",
      danger_list := [{ alert := "risky interaction", id := 2 }],
      warning_list := [], forbidden_list := [] } (by decide)).1

/-- Modelled from the spec: `createPersistStore` lives in
`background/utils`, outside `src/`. Per the spec's persistence boundary it
returns the persisted record when one exists and otherwise seeds (and
persists) the given template; later field mutations on the returned record
are durably reflected. -/
def createPersistStore (persisted : Option OpenApiStore)
    (template : OpenApiStore) : OpenApiStore :=
  persisted.getD template

/-- Observable state of the service instance: the durably persisted record,
the in-memory store, the host the rate-limited transport is bound to
(`baseURL` at the last rebuild), and the trace of hosts against which a
route-table refresh was attempted. -/
structure ServiceState where
  persisted : Option OpenApiStore
  store : OpenApiStore
  transportHost : String
  refreshAttempts : List String
deriving Repr

/-- The `init` sequence of the source: load or seed the persisted store,
rebuild the rate-limited transport bound to `store.host`, then inside the
`try/catch` attempt exactly one route-table refresh (`getConfig`, whose GET
targets `store.host`) followed by `_mountMethods`, which touches neither the
store nor the transport. -/
def init (st : ServiceState) (fetched : FetchResult) : ServiceState :=
  let store₀ := createPersistStore st.persisted initTemplate
  let store₁ := initTryStep store₀ fetched
  { persisted := some store₁
    store := store₁
    transportHost := store₀.host
    refreshAttempts := st.refreshAttempts ++ [store₀.host] }

/-- The `setHost` operation of the source: assign the new host on the
persisted store (the persist proxy reflects the mutation durably), then
`await this.init()`. -/
def setHost (st : ServiceState) (newHost : String) (fetched : FetchResult) :
    ServiceState :=
  init { st with
    store := { st.store with host := newHost }
    persisted := some { st.store with host := newHost } } fetched

/-- The host a typed operation targets: typed operations issue their request
through `this.request`, the rate-limited transport whose `baseURL` was bound
at the last rebuild. -/
def typedRequestTarget (st : ServiceState) : String :=
  st.transportHost

theorem initTryStep_host (store : OpenApiStore) (fetched : FetchResult) :
    (initTryStep store fetched).host = store.host := by
  cases fetched with
  | networkError => rfl
  | ok data =>
    cases h : normalizeConfig data with
    | none => simp [initTryStep, getConfig, h]
    | some cfg => simp [initTryStep, getConfig, h]

/-- C5: `setHost(newHost)` persists the new host and triggers exactly one
route-table refresh attempt against the new host, together with a transport
rebuild bound to it; the store keeps the new host whatever the refresh
outcome (the persisted record tracks it), and any subsequently issued typed
operation targets the new host. -/
theorem setHost_one_refresh_new_host (st : ServiceState) (newHost : String)
    (fetched : FetchResult) :
    (setHost st newHost fetched).transportHost = newHost ∧
    (setHost st newHost fetched).refreshAttempts =
      st.refreshAttempts ++ [newHost] ∧
    (setHost st newHost fetched).store.host = newHost ∧
    (setHost st newHost fetched).persisted =
      some (setHost st newHost fetched).store ∧
    typedRequestTarget (setHost st newHost fetched) = newHost := by
  unfold setHost init createPersistStore typedRequestTarget
  simp [initTryStep_host]

end OpenApi
